import Mathlib

/-!
Shallow embedding of the WGAN-GP training script (src/WGAN-GP/wgan_gp.py).

Samples (images, noise vectors, gradients) are modelled as flattened real
vectors; a batch is a list of samples.  The discriminator, the generator,
backward-mode differentiation and the random draws of the script are
oracles bundled in `Env`: `D` is the per-sample discriminator score,
`gradD x` is the gradient of the discriminator output at the point `x`
(what `torch.autograd.grad` computes sample-wise), `randn k f` is the
`np.random.randn(k, f)` draw, and `rand s n` is the `torch.rand(n,1,1,1)`
draw at discriminator step number `s`.  The shape laws of the torch
samplers (`randn(k, f)` has `k` rows, `rand` of `n` entries has length
`n`, uniform draws lie in `[0,1)`) are carried as fields of `Env`.
-/

namespace WGANGP

/-- A flattened tensor sample: one image, one noise vector or one gradient. -/
abbrev Sample := List ℝ

/-- Model of `torch.mean` over a flat list of scalars. -/
noncomputable def mean (l : List ℝ) : ℝ := l.sum / l.length

/-- Model of `gradients.norm(2, dim=1)` for one flattened row: the L2 norm. -/
noncomputable def l2norm (v : Sample) : ℝ := Real.sqrt ((v.map fun x => x ^ 2).sum)

/-- Line 118 of wgan_gp.py: `x_hat = alpha * real + (1 - alpha) * fake`, with the
scalar `alpha` broadcast over every component of the sample. -/
noncomputable def interpolate (a : ℝ) (r f : Sample) : Sample :=
  List.zipWith (fun x y => a * x + (1 - a) * y) r f

/-- Model of `torch.autograd.grad(outputs=out, inputs=x_hat, grad_outputs=w)` for a
network that scores each sample independently: row `i` of the result is
`w i` times the gradient of the score at row `i` of `x_hat`. -/
noncomputable def autograd_grad (gradD : Sample → Sample) (w : List ℝ)
    (xs : List Sample) : List Sample :=
  List.zipWith (fun wi x => (gradD x).map fun g => wi * g) w xs

/-- Lines 114-135 of wgan_gp.py, `compute_gradient_penalty`: interpolate with the
per-sample coefficients `alphas` (the `torch.rand(real.shape[0],1,1,1)` draw),
differentiate the discriminator output with `grad_outputs = torch.ones` (the
`List.replicate _ 1` weights), flatten each row, and return the per-sample value
`(l2norm - 1)^2 * lambda_pen`. -/
noncomputable def compute_gradient_penalty (alphas : List ℝ) (real fake : List Sample)
    (gradD : Sample → Sample) (lambda_pen : ℝ) : List ℝ :=
  let x_hat := List.zipWith (fun a (rf : Sample × Sample) => interpolate a rf.1 rf.2)
    alphas (real.zip fake)
  let gradients := autograd_grad gradD (List.replicate x_hat.length 1) x_hat
  let penalty := gradients.map fun g => (l2norm g - 1) ^ 2
  penalty.map fun p => p * lambda_pen

/-- The gradient-penalty estimator as the spec words it (section 4.1): one
coefficient per sample, `interpolated = alpha*real + (1-alpha)*fake`, the gradient
of the summed discriminator output at the interpolated point, flattened, and the
per-sample penalty `lambda * (norm - 1)^2`. -/
noncomputable def penalty_spec_words (alphas : List ℝ) (real fake : List Sample)
    (gradD : Sample → Sample) (lambda_pen : ℝ) : List ℝ :=
  List.zipWith (fun a (rf : Sample × Sample) =>
      lambda_pen * (l2norm (gradD (interpolate a rf.1 rf.2)) - 1) ^ 2)
    alphas (real.zip fake)

/-- Model of `torch.mean` applied to a broadcast matrix given row by row: the sum
of all entries over the count of all entries.  Line 456 adds a tensor of shape
`(n,1)` to one of shape `(n,)`, which torch broadcasts to an `n x n` matrix. -/
noncomputable def meanMatrix (rows : List (List ℝ)) : ℝ :=
  (rows.map List.sum).sum / ((rows.map List.length).sum : ℝ)

/-- The configuration keys read from config.yml at lines 335-349 of wgan_gp.py. -/
structure Config where
  dataset : String
  n_noise_features : Nat
  epochs : Nat
  disc_steps : Nat
  gen_steps : Nat
  batch_size : Nat
  print_every : Nat
  checkpoints : Nat
  rolling_window : Nat
  discriminator_filters : Nat
  generator_filters : Nat
  discriminator_label_noise : ℝ
  discriminator_input_noise : ℝ
  resume_training : Bool
  lambda_pen : ℝ

/-- The external collaborators of the training loop: the two networks, the
gradient oracle of backward-mode differentiation, and the random samplers with
their shape laws.  `discBackwardGrad v` is the gradient vector that
`loss.backward()` writes into the discriminator parameters when the loss value is
`v`; `genBackwardDiscGrad v` is what the generator-phase backward would write
there if discriminator gradient tracking were enabled. -/
structure Env where
  D : Sample → ℝ
  G : Sample → Sample
  gradD : Sample → Sample
  randn : Nat → Nat → List Sample
  rand : Nat → Nat → List ℝ
  discBackwardGrad : ℝ → List ℝ
  genBackwardDiscGrad : ℝ → List ℝ
  randn_length : ∀ k f, (randn k f).length = k
  rand_length : ∀ s n, (rand s n).length = n
  rand_mem : ∀ s n, ∀ a ∈ rand s n, 0 ≤ a ∧ a < 1

/-- The tensors computed by one discriminator update (lines 443-458). -/
structure DiscStepOut where
  noises : List Sample
  gen_images : List Sample
  disc_output : List ℝ
  gen_output : List ℝ
  gradient_penalty : List ℝ
  loss : ℝ
  wdist : ℝ

/-- Lines 443-458 of wgan_gp.py: the value computations of one discriminator
update on one real batch.  `common_batch_size = min(batch_size, images.shape[0])`
sizes the noise draw; the loss is `torch.mean(gen_output - disc_output +
gradient_penalty)` where the `(n,1)`-shaped score difference and the
`(n,)`-shaped penalty broadcast to an `n x n` matrix; `wdist` is
`torch.mean(disc_output - gen_output)`. -/
noncomputable def disc_step (cfg : Config) (D : Sample → ℝ) (G : Sample → Sample)
    (gradD : Sample → Sample) (randn : Nat → Nat → List Sample)
    (alphas : List ℝ) (lambda_pen : ℝ) (images : List Sample) : DiscStepOut :=
  let common_batch_size := min cfg.batch_size images.length
  let noises := randn common_batch_size cfg.n_noise_features
  let disc_output := images.map D
  let gen_images := noises.map G
  let gen_output := gen_images.map D
  let gp := compute_gradient_penalty alphas images gen_images gradD lambda_pen
  let diff := List.zipWith (fun a b => a - b) gen_output disc_output
  let loss := meanMatrix (diff.map fun x => gp.map fun q => x + q)
  let wdist := mean (List.zipWith (fun a b => a - b) disc_output gen_output)
  ⟨noises, gen_images, disc_output, gen_output, gp, loss, wdist⟩

/-- The discriminator update of the loop, with the oracles of `env` plugged in:
the interpolation coefficients are the `torch.rand` draw of step `step`, one per
sample of the real batch, and `lambda_pen` comes from the config. -/
noncomputable def disc_step_env (cfg : Config) (env : Env) (step : Nat)
    (images : List Sample) : DiscStepOut :=
  disc_step cfg env.D env.G env.gradD env.randn (env.rand step images.length)
    cfg.lambda_pen images

/-- The mutable state of the training loop (lines 414-418 and the loop body):
the four metric streams, the two loop counters, the gradient-tracking flags of
the two parameter sets, the discriminator parameter gradients, and bookkeeping
counters for optimizer steps and backward passes.  Each backward pass also logs
`(ranInDiscPhase, disc_requires_grad, gen_requires_grad)` at the moment of the
call. -/
structure TrainState where
  disc_losses : List ℝ
  gen_losses : List ℝ
  w_distances : List ℝ
  gradient_penalty_list : List ℝ
  gen_iterations : Nat
  steps : Nat
  disc_requires_grad : Bool
  gen_requires_grad : Bool
  disc_grads : List ℝ
  disc_opt_steps : Nat
  gen_opt_steps : Nat
  disc_backwards : Nat
  gen_backwards : Nat
  backward_trace : List (Bool × Bool × Bool)

/-- The state at line 420 of wgan_gp.py: empty metric streams, zero counters;
both freshly built models track gradients. -/
def initial_state : TrainState :=
  { disc_losses := [], gen_losses := [], w_distances := [], gradient_penalty_list := []
    gen_iterations := 0, steps := 0
    disc_requires_grad := true, gen_requires_grad := true
    disc_grads := [], disc_opt_steps := 0, gen_opt_steps := 0
    disc_backwards := 0, gen_backwards := 0, backward_trace := [] }

/-- Lines 435-438 of wgan_gp.py: the adaptive discriminator step count.  The
baseline is re-read from the loaded config mapping each time, so the
earlier overwrite of the variable does not change it. -/
def adaptive_disc_steps (gen_iterations : Nat) (config_disc_steps : Nat) : Nat :=
  if gen_iterations < 25 ∨ gen_iterations % 500 = 0 then 100 else config_disc_steps

/-- Lines 440-472 of wgan_gp.py: one iteration of the inner discriminator loop
on one batch, as a state transition: compute the step values, run one backward
pass (which writes the discriminator gradients and logs a trace event), run one
`disc_optimizer.step()`, append the metrics, and advance the `steps` counter. -/
noncomputable def disc_step_state (cfg : Config) (env : Env) (images : List Sample)
    (st : TrainState) : TrainState :=
  let out := disc_step_env cfg env st.steps images
  { st with
    disc_losses := st.disc_losses ++ [out.loss]
    w_distances := st.w_distances ++ [out.wdist]
    gradient_penalty_list := st.gradient_penalty_list ++ [mean out.gradient_penalty]
    steps := st.steps + 1
    disc_backwards := st.disc_backwards + 1
    disc_opt_steps := st.disc_opt_steps + 1
    disc_grads := env.discBackwardGrad out.loss
    backward_trace := st.backward_trace ++
      [(true, st.disc_requires_grad, st.gen_requires_grad)] }

/-- The inner loop `while j < disc_steps and i < len(train_loader)` (line 440):
run up to `s` discriminator updates, each consuming one batch, stopping early
when the loader is exhausted; returns the new state and the unconsumed batches. -/
noncomputable def disc_phase (cfg : Config) (env : Env) :
    Nat → List (List Sample) → TrainState → TrainState × List (List Sample)
  | 0, batches, st => (st, batches)
  | _ + 1, [], st => (st, [])
  | s + 1, b :: rest, st => disc_phase cfg env s rest (disc_step_state cfg env b st)

/-- Lines 480-498 of wgan_gp.py: one generator update.  A full-size noise batch
of `batch_size` rows is drawn, the generated batch is scored, the loss is
`- torch.mean(gen_output)`, one backward pass runs (writing into the
discriminator gradients only if they are still tracked), one
`gen_optimizer.step()` runs, the loss is appended and `gen_iterations` is
incremented. -/
noncomputable def gen_step (cfg : Config) (env : Env) (st : TrainState) : TrainState :=
  let noises := env.randn cfg.batch_size cfg.n_noise_features
  let gen_images := noises.map env.G
  let gen_output := gen_images.map env.D
  let loss := - mean gen_output
  { st with
    gen_losses := st.gen_losses ++ [loss]
    gen_backwards := st.gen_backwards + 1
    gen_opt_steps := st.gen_opt_steps + 1
    disc_grads := if st.disc_requires_grad then env.genBackwardDiscGrad loss
      else st.disc_grads
    backward_trace := st.backward_trace ++
      [(false, st.disc_requires_grad, st.gen_requires_grad)]
    gen_iterations := st.gen_iterations + 1 }

/-- Lines 427-498 of wgan_gp.py: one iteration of the outer `while i <
len(train_loader)` loop.  Discriminator gradient tracking is switched on (lines
432-433), the adaptive step count is chosen (435-438), the discriminator phase
runs (440-472), tracking is switched off (478-479), and one generator update
runs (480-498). -/
noncomputable def outer_iteration (cfg : Config) (env : Env)
    (batches : List (List Sample)) (st : TrainState) :
    TrainState × List (List Sample) :=
  let st1 := { st with disc_requires_grad := true }
  let s := adaptive_disc_steps st1.gen_iterations cfg.disc_steps
  let p := disc_phase cfg env s batches st1
  let st3 := { p.1 with disc_requires_grad := false }
  (gen_step cfg env st3, p.2)

/-- The body of one epoch (lines 425-498): repeat outer iterations until every
batch the loader yielded this epoch is consumed.  The fuel argument bounds the
number of outer iterations; each iteration with a positive scheduled step count
consumes at least one batch, so `batches.length` fuel is enough. -/
noncomputable def epoch_loop (cfg : Config) (env : Env) :
    Nat → List (List Sample) → TrainState → TrainState
  | 0, _, st => st
  | fuel + 1, batches, st =>
    if batches.isEmpty then st
    else
      let p := outer_iteration cfg env batches st
      epoch_loop cfg env fuel p.2 p.1

/-- One full epoch over the batches the data loader yields. -/
noncomputable def run_epoch (cfg : Config) (env : Env) (batches : List (List Sample))
    (st : TrainState) : TrainState :=
  epoch_loop cfg env batches.length batches st

/-- What the startup code decides (lines 319-386 of wgan_gp.py). -/
structure StartupOut where
  config_file : String
  resume_training : Bool
  result_dir : String
  creates_new_dir : Bool
  loads_checkpoint : Bool

/-- Lines 319-386 of wgan_gp.py.  `resume_from_folder` is the CLI flag with the
sentinel "None" for an absent flag (line 320).  The flag selects the config
file (lines 323-329); the config is loaded and line 348 overwrites
`resume_training` with the value of the `resume_training` key of that file;
lines 352-374 then create a fresh result directory exactly when the overwritten
`resume_training` is false, otherwise reuse `args.resume_from_folder` as the
result directory; lines 381-386 load checkpointed parameters exactly when it is
true.  `configs` maps a config-file path to its parsed content; `fresh_dir` is
the timestamp-derived name a fresh run would create. -/
def startup (resume_from_folder : String) (configs : String → Config)
    (fresh_dir : String) : StartupOut :=
  let folder := if resume_from_folder ≠ "None"
    then (if resume_from_folder ≠ "/" then resume_from_folder ++ "/"
      else resume_from_folder)
    else resume_from_folder
  let config_file := if resume_from_folder ≠ "None" then folder ++ "config.yml"
    else "config.yml"
  let cfg := configs config_file
  let resume_training := cfg.resume_training
  { config_file := config_file
    resume_training := resume_training
    result_dir := if resume_training then folder else fresh_dir
    creates_new_dir := !resume_training
    loads_checkpoint := resume_training }

/-- The configuration of the end-to-end scenario of spec section 8: batch size
8, 10 noise features, one epoch, baseline of one discriminator step. -/
noncomputable def scenario_cfg : Config :=
  { dataset := "MNIST", n_noise_features := 10, epochs := 1, disc_steps := 1
    gen_steps := 1, batch_size := 8, print_every := 1, checkpoints := 1
    rolling_window := 10, discriminator_filters := 64, generator_filters := 128
    discriminator_label_noise := 0, discriminator_input_noise := 0
    resume_training := false, lambda_pen := 10 }

/-- A concrete environment used to instantiate hypotheses at concrete inputs:
the discriminator scores a sample by its component sum, the generator is the
identity, the gradient oracle is constant, and the samplers draw zeros. -/
noncomputable def testEnv : Env :=
  { D := fun s => s.sum
    G := fun s => s
    gradD := fun _ => [1]
    randn := fun k f => List.replicate k (List.replicate f 0)
    rand := fun _ n => List.replicate n 0
    discBackwardGrad := fun v => [v]
    genBackwardDiscGrad := fun v => [v, v]
    randn_length := by intro k f; simp
    rand_length := by intro s n; simp
    rand_mem := by intro s n a ha; simp_all }

/-! ## Helper lemmas -/

theorem sum_map_add_left (x : ℝ) (p : List ℝ) :
    (p.map fun q => x + q).sum = p.length * x + p.sum := by
  induction p with
  | nil => simp
  | cons a t ih => simp [ih]; ring

theorem sum_map_affine (c s : ℝ) (d : List ℝ) :
    (d.map fun x => c * x + s).sum = c * d.sum + d.length * s := by
  induction d with
  | nil => simp
  | cons a t ih => simp [ih]; ring

theorem sum_map_const_nat {α : Type} (d : List α) (n : ℕ) :
    (d.map fun _ => n).sum = d.length * n := by
  induction d with
  | nil => simp
  | cons a t ih => simp [ih]; ring

theorem sum_zipWith_add (d p : List ℝ) (h : d.length = p.length) :
    (List.zipWith (fun a b => a + b) d p).sum = d.sum + p.sum := by
  induction d generalizing p with
  | nil =>
    cases p with
    | nil => simp
    | cons b q => simp at h
  | cons a t ih =>
    cases p with
    | nil => simp at h
    | cons b q =>
      simp only [List.zipWith_cons_cons, List.sum_cons]
      rw [ih q (by simpa using h)]
      ring

/-- The value torch computes at line 456: the mean of the `n x n` broadcast of an
`(n,1)` tensor against an `(n,)` tensor equals the mean of their row-wise sum. -/
theorem meanMatrix_broadcast (d p : List ℝ) (hlen : d.length = p.length)
    (hne : d ≠ []) :
    meanMatrix (d.map fun x => p.map fun q => x + q) =
      mean (List.zipWith (fun a b => a + b) d p) := by
  have h0 : d.length ≠ 0 := fun h => hne (List.length_eq_zero.mp h)
  have hn : (d.length : ℝ) ≠ 0 := Nat.cast_ne_zero.2 h0
  unfold meanMatrix mean
  rw [List.map_map, List.map_map]
  simp only [Function.comp_def, sum_map_add_left, List.length_map]
  rw [sum_map_affine, sum_map_const_nat, sum_zipWith_add d p hlen,
    List.length_zipWith, ← hlen, min_self]
  push_cast
  field_simp
  ring

theorem compute_gradient_penalty_length (alphas : List ℝ) (real fake : List Sample)
    (gradD : Sample → Sample) (lam : ℝ) :
    (compute_gradient_penalty alphas real fake gradD lam).length =
      min alphas.length (min real.length fake.length) := by
  simp [compute_gradient_penalty, autograd_grad, List.length_zipWith, List.length_zip]

/-- Closed form of one entry of the gradient-penalty list. -/
theorem compute_gradient_penalty_getD (alphas : List ℝ) (real fake : List Sample)
    (gradD : Sample → Sample) (lam : ℝ) (i : ℕ)
    (hi : i < (compute_gradient_penalty alphas real fake gradD lam).length) :
    (compute_gradient_penalty alphas real fake gradD lam).getD i 0 =
      (l2norm (gradD (interpolate (alphas.getD i 0) (real.getD i [])
        (fake.getD i []))) - 1) ^ 2 * lam := by
  have hl := compute_gradient_penalty_length alphas real fake gradD lam
  have hi' : i < min alphas.length (min real.length fake.length) := hl ▸ hi
  have hia : i < alphas.length := lt_of_lt_of_le hi' (min_le_left _ _)
  have hirf : i < min real.length fake.length := lt_of_lt_of_le hi' (min_le_right _ _)
  have hir : i < real.length := lt_of_lt_of_le hirf (min_le_left _ _)
  have hif : i < fake.length := lt_of_lt_of_le hirf (min_le_right _ _)
  rw [List.getD_eq_getElem _ _ hi, List.getD_eq_getElem _ _ hia,
    List.getD_eq_getElem _ _ hir, List.getD_eq_getElem _ _ hif]
  simp [compute_gradient_penalty, autograd_grad, List.getElem_zipWith,
    List.getElem_zip, List.getElem_map, one_mul]

/-! ## Claim theorems -/

/-- Claim C1: for every cumulative generator-update count `g`, the scheduled
discriminator step count is 100 when `g < 25` or `g` is a positive multiple of
500, and the configured baseline otherwise. -/
theorem adaptive_disc_steps_policy (g base : Nat) :
    adaptive_disc_steps g base =
      if g < 25 ∨ (0 < g ∧ g % 500 = 0) then 100 else base := by
  unfold adaptive_disc_steps
  by_cases h1 : g < 25
  · simp [h1]
  · have hg : 0 < g := by omega
    by_cases h2 : g % 500 = 0 <;> simp [h1, h2, hg]

/-- Claim C2: the gradient-penalty estimator of lines 114-135 — one interpolation
coefficient per sample drawn in `[0,1)`, broadcast over the sample,
`interpolated = alpha*real + (1-alpha)*fake`, gradient of the summed
discriminator output taken at the interpolated batch with
`grad_outputs = torch.ones`, flattened per sample — returns exactly the
spec formula `lambda * (L2norm - 1)^2` per sample. -/
theorem compute_gradient_penalty_matches_spec (alphas : List ℝ)
    (real fake : List Sample) (gradD : Sample → Sample) (lambda_pen : ℝ)
    (_hcount : alphas.length = real.length)
    (_hrange : ∀ a ∈ alphas, 0 ≤ a ∧ a < 1) :
    compute_gradient_penalty alphas real fake gradD lambda_pen =
      penalty_spec_words alphas real fake gradD lambda_pen := by
  apply List.ext_getElem
  · simp [compute_gradient_penalty, penalty_spec_words, autograd_grad,
      List.length_zipWith, List.length_zip]
  · intro i h1 h2
    simp [compute_gradient_penalty, penalty_spec_words, autograd_grad,
      List.getElem_zipWith, List.getElem_zip, List.getElem_map, one_mul]
    ring

/-- Witness for compute_gradient_penalty_matches_spec at a concrete input: one
sample, coefficient 1/2. -/
theorem compute_gradient_penalty_matches_spec_witness :
    compute_gradient_penalty [(1:ℝ)/2] [[0]] [[2]] (fun _ => [1]) 10 =
      penalty_spec_words [(1:ℝ)/2] [[0]] [[2]] (fun _ => [1]) 10 :=
  compute_gradient_penalty_matches_spec [(1:ℝ)/2] [[0]] [[2]] (fun _ => [1]) 10
    (by simp) (by intro a ha; simp at ha; constructor <;> norm_num [ha])

/-- Claim C3, counterexample: the spec permits `lambda_pen = 0` (float at least
0), and with that weight the per-sample penalty is 0 even though the gradient
L2 norm is 0, not 1 — so the penalty is not zero exactly when the norm is 1. -/
theorem penalty_zero_weight_counterexample :
    (0:ℝ) ≤ 0 ∧
    compute_gradient_penalty [0] [[0]] [[0]] (fun _ => [0]) 0 = [0] ∧
    l2norm [(0:ℝ)] ≠ 1 := by
  refine ⟨le_refl 0, ?_, ?_⟩
  · simp [compute_gradient_penalty, autograd_grad, interpolate]
  · simp [l2norm]

/-- Claim C3 (amended): for every permitted weight `lambda_pen` at least 0 the
per-sample penalty is non-negative, and for strictly positive `lambda_pen` it is
zero exactly when the gradient L2 norm at the interpolated point is exactly 1
(with `lambda_pen = 0` every penalty is 0 whatever the norm). -/
theorem penalty_nonneg_and_zero_iff (alphas : List ℝ) (real fake : List Sample)
    (gradD : Sample → Sample) (lambda_pen : ℝ) (hl : 0 ≤ lambda_pen) (i : ℕ)
    (hi : i < (compute_gradient_penalty alphas real fake gradD lambda_pen).length) :
    0 ≤ (compute_gradient_penalty alphas real fake gradD lambda_pen).getD i 0 ∧
    (0 < lambda_pen →
      ((compute_gradient_penalty alphas real fake gradD lambda_pen).getD i 0 = 0 ↔
        l2norm (gradD (interpolate (alphas.getD i 0) (real.getD i [])
          (fake.getD i []))) = 1)) := by
  rw [compute_gradient_penalty_getD _ _ _ _ _ _ hi]
  constructor
  · exact mul_nonneg (sq_nonneg _) hl
  · intro hpos
    constructor
    · intro h
      rcases mul_eq_zero.mp h with h | h
      · have h1 : l2norm (gradD (interpolate (alphas.getD i 0) (real.getD i [])
            (fake.getD i []))) - 1 = 0 := by
          exact pow_eq_zero_iff (by norm_num) |>.mp h
        linarith
      · exact absurd h (ne_of_gt hpos)
    · intro h
      rw [h]
      ring

/-- Witness for penalty_nonneg_and_zero_iff: one sample, constant gradient
oracle `[1]` whose norm is 1, weight 2. -/
theorem penalty_nonneg_and_zero_iff_witness :
    0 ≤ (compute_gradient_penalty [(1:ℝ)/2] [[0]] [[2]] (fun _ => [1]) 2).getD 0 0 ∧
    (0 < (2:ℝ) →
      ((compute_gradient_penalty [(1:ℝ)/2] [[0]] [[2]] (fun _ => [1]) 2).getD 0 0 = 0 ↔
        l2norm ((fun _ : Sample => [(1:ℝ)]) (interpolate (([(1:ℝ)/2]).getD 0 0)
          (([[(0:ℝ)]]).getD 0 []) (([[(2:ℝ)]]).getD 0 []))) = 1)) :=
  penalty_nonneg_and_zero_iff [(1:ℝ)/2] [[0]] [[2]] (fun _ => [1]) 2 (by norm_num) 0
    (by simp [compute_gradient_penalty, autograd_grad])

/-- Claim C5: every generator update draws a full-size noise batch of
`batch_size` rows, scores the generated batch with the discriminator, records
the loss `- mean(fake_score)` with exactly one backward pass and one
generator-optimizer step, and increments the `gen_iterations` counter the
adaptive scheduler consumes. -/
theorem gen_step_properties (cfg : Config) (env : Env) (st : TrainState) :
    (env.randn cfg.batch_size cfg.n_noise_features).length = cfg.batch_size ∧
    (gen_step cfg env st).gen_losses = st.gen_losses ++
      [- mean (((env.randn cfg.batch_size cfg.n_noise_features).map env.G).map
        env.D)] ∧
    (gen_step cfg env st).gen_backwards = st.gen_backwards + 1 ∧
    (gen_step cfg env st).gen_opt_steps = st.gen_opt_steps + 1 ∧
    (gen_step cfg env st).gen_iterations = st.gen_iterations + 1 :=
  ⟨env.randn_length _ _, rfl, rfl, rfl, rfl⟩

/-- Claim C7, evaluated at the failing input: on an empty real batch the
discriminator step has no guard — it draws an empty noise batch and computes
straight through the mean of an empty tensor (the division-by-zero junk value 0
in this embedding, NaN in torch) instead of rejecting with an explicit error. -/
theorem disc_step_empty_batch_no_guard :
    (disc_step_env scenario_cfg testEnv 0 []).noises = [] ∧
    (disc_step_env scenario_cfg testEnv 0 []).disc_output = [] ∧
    (disc_step_env scenario_cfg testEnv 0 []).loss = 0 ∧
    (disc_step_env scenario_cfg testEnv 0 []).wdist = 0 := by
  refine ⟨?_, rfl, ?_, ?_⟩ <;>
    simp [disc_step_env, disc_step, scenario_cfg, testEnv, meanMatrix, mean,
      compute_gradient_penalty, autograd_grad]

/-- Claim C9, counterexample: with the flag absent (the "None" sentinel of line
320) but ./config.yml carrying `resume_training: true`, the process does not
start a fresh run — line 348 overwrites the flag-derived value, so it loads
checkpointed models, creates no new result directory, and reuses the bogus
directory name "None". -/
theorem resume_flag_counterexample :
    (startup "None" (fun _ => { scenario_cfg with resume_training := true })
        "fresh/").loads_checkpoint = true ∧
    (startup "None" (fun _ => { scenario_cfg with resume_training := true })
        "fresh/").creates_new_dir = false ∧
    (startup "None" (fun _ => { scenario_cfg with resume_training := true })
        "fresh/").result_dir = "None" :=
  ⟨rfl, rfl, rfl⟩

/-- Claim C9 (amended): the optional CLI flag selects which config file is read
— absent flag reads ./config.yml; a flag naming a prior run directory reads the
config.yml inside it, making that file the sole source of resumed
hyperparameters — but fresh versus resume is then determined solely by the
`resume_training` key of the selected config file, which overwrites the
flag-derived value at load time. -/
theorem resume_flag_selects_config (flag : String) (configs : String → Config)
    (fresh_dir : String) :
    (startup flag configs fresh_dir).config_file =
      (if flag ≠ "None"
        then (if flag ≠ "/" then flag ++ "/" else flag) ++ "config.yml"
        else "config.yml") ∧
    (startup flag configs fresh_dir).resume_training =
      (configs (startup flag configs fresh_dir).config_file).resume_training ∧
    (startup flag configs fresh_dir).loads_checkpoint =
      (configs (startup flag configs fresh_dir).config_file).resume_training ∧
    (startup flag configs fresh_dir).creates_new_dir =
      !(configs (startup flag configs fresh_dir).config_file).resume_training :=
  ⟨by by_cases h : flag = "None" <;> simp [startup, h], by rfl, by rfl, by rfl⟩

/-- The discriminator phase leaves both gradient-tracking flags as it found
them, and every backward event it appends to the trace is a
discriminator-phase event stamped with those flags. -/
theorem disc_phase_trace (cfg : Config) (env : Env) (s : Nat) :
    ∀ (batches : List (List Sample)) (st : TrainState),
      ∃ tr, (disc_phase cfg env s batches st).1.backward_trace
          = st.backward_trace ++ tr ∧
        (∀ ev ∈ tr, ev = (true, st.disc_requires_grad, st.gen_requires_grad)) ∧
        (disc_phase cfg env s batches st).1.disc_requires_grad
          = st.disc_requires_grad ∧
        (disc_phase cfg env s batches st).1.gen_requires_grad
          = st.gen_requires_grad := by
  induction s with
  | zero =>
    intro batches st
    exact ⟨[], by simp [disc_phase], by simp, rfl, rfl⟩
  | succ s ih =>
    intro batches st
    cases batches with
    | nil => exact ⟨[], by simp [disc_phase], by simp, rfl, rfl⟩
    | cons b rest =>
      obtain ⟨tr, h1, h2, h3, h4⟩ := ih rest (disc_step_state cfg env b st)
      have hstep : disc_phase cfg env (s + 1) (b :: rest) st
          = disc_phase cfg env s rest (disc_step_state cfg env b st) := rfl
      refine ⟨(true, st.disc_requires_grad, st.gen_requires_grad) :: tr,
        ?_, ?_, ?_, ?_⟩
      · rw [hstep, h1]
        simp [disc_step_state]
      · intro ev hev
        rcases List.mem_cons.mp hev with hev | hev
        · exact hev
        · exact h2 ev hev
      · rw [hstep, h3]; rfl
      · rw [hstep, h4]; rfl

/-- Claim C6 (amended): in every outer iteration, discriminator gradient
tracking is switched on at the start of the discriminator phase and off before
the generator update, so every discriminator-phase backward runs with the
discriminator trainable, the generator backward runs with the discriminator
frozen, and the generator update leaves the discriminator gradients exactly as
the discriminator phase left them.  (The generator, however, stays trainable
throughout, so a discriminator backward runs with both networks trainable.) -/
theorem grad_toggle_discipline (cfg : Config) (env : Env)
    (batches : List (List Sample)) (st : TrainState) :
    ∃ tr, (outer_iteration cfg env batches st).1.backward_trace
        = st.backward_trace ++ tr ∧
      (∀ ev ∈ tr, ev.1 = true → ev.2.1 = true) ∧
      (∀ ev ∈ tr, ev.1 = false → ev.2.1 = false) ∧
      (outer_iteration cfg env batches st).1.disc_grads =
        (disc_phase cfg env (adaptive_disc_steps st.gen_iterations cfg.disc_steps)
          batches { st with disc_requires_grad := true }).1.disc_grads := by
  obtain ⟨tr, h1, h2, h3, h4⟩ := disc_phase_trace cfg env
    (adaptive_disc_steps st.gen_iterations cfg.disc_steps) batches
    { st with disc_requires_grad := true }
  refine ⟨tr ++ [(false, false,
    (disc_phase cfg env (adaptive_disc_steps st.gen_iterations cfg.disc_steps)
      batches { st with disc_requires_grad := true }).1.gen_requires_grad)],
    ?_, ?_, ?_, ?_⟩
  · show (gen_step cfg env _).backward_trace = _
    simp [gen_step, h1]
  · intro ev hev
    rcases List.mem_append.mp hev with hev | hev
    · rw [h2 ev hev]; intro; rfl
    · rw [List.mem_singleton.mp hev]; intro h; cases h
  · intro ev hev
    rcases List.mem_append.mp hev with hev | hev
    · rw [h2 ev hev]; intro h; cases h
    · rw [List.mem_singleton.mp hev]; intro; rfl
  · show (gen_step cfg env _).disc_grads = _
    simp [gen_step]

/-- Claim C6, counterexample: running one outer iteration from a state past the
warm-up (25 prior generator updates, baseline one discriminator step) on a
one-batch loader logs a discriminator-phase backward event in which both
`disc_requires_grad` and `gen_requires_grad` are true — the script never turns
generator gradient tracking off during training, so the discriminator backward
runs with both networks trainable at once. -/
theorem both_trainable_in_disc_backward :
    (true, true, true) ∈
      (outer_iteration scenario_cfg testEnv [[[(0:ℝ)]]]
        { initial_state with gen_iterations := 25 }).1.backward_trace := by
  simp [outer_iteration, disc_phase, disc_step_state, gen_step,
    adaptive_disc_steps, initial_state, scenario_cfg]

/-- Lengths of the per-sample tensors of one discriminator update: with a real
batch of at most `batch_size` rows and one coefficient per sample, every
per-sample list has the batch length. -/
theorem disc_step_lengths (cfg : Config) (D : Sample → ℝ) (G : Sample → Sample)
    (gradD : Sample → Sample) (randn : Nat → Nat → List Sample)
    (alphas : List ℝ) (lam : ℝ) (images : List Sample)
    (hrandn : ∀ k f, (randn k f).length = k)
    (halpha : alphas.length = images.length)
    (hbs : images.length ≤ cfg.batch_size) :
    (disc_step cfg D G gradD randn alphas lam images).noises.length
        = images.length ∧
    (disc_step cfg D G gradD randn alphas lam images).gen_output.length
        = images.length ∧
    (disc_step cfg D G gradD randn alphas lam images).disc_output.length
        = images.length ∧
    (disc_step cfg D G gradD randn alphas lam images).gradient_penalty.length
        = images.length := by
  have hmin : min cfg.batch_size images.length = images.length := min_eq_right hbs
  refine ⟨?_, ?_, ?_, ?_⟩ <;>
    simp [disc_step, hrandn, hmin, halpha, compute_gradient_penalty_length]

/-- Claim C4: one discriminator update on a non-empty real batch draws a noise
batch of `min(batch_size, real batch size)` rows; its loss — the mean of the
`n x n` broadcast of line 456 — equals the mean of the per-sample value
`fake_score - real_score + penalty`; the recorded `wasserstein_estimate` is
`mean(real_score - fake_score)`, appended to the informational `w_distances`
stream while the backward pass and the single discriminator-optimizer step act
on the loss, not on it. -/
theorem disc_step_properties (cfg : Config) (env : Env) (st : TrainState)
    (images : List Sample) (hne : images ≠ [])
    (hbs : images.length ≤ cfg.batch_size) :
    (disc_step_env cfg env st.steps images).noises.length
        = min cfg.batch_size images.length ∧
    (disc_step_env cfg env st.steps images).loss =
      mean (List.zipWith (fun a b => a + b)
        (List.zipWith (fun a b => a - b)
          (disc_step_env cfg env st.steps images).gen_output
          (disc_step_env cfg env st.steps images).disc_output)
        (disc_step_env cfg env st.steps images).gradient_penalty) ∧
    (disc_step_env cfg env st.steps images).wdist =
      mean (List.zipWith (fun a b => a - b)
        (disc_step_env cfg env st.steps images).disc_output
        (disc_step_env cfg env st.steps images).gen_output) ∧
    (disc_step_state cfg env images st).disc_losses =
      st.disc_losses ++ [(disc_step_env cfg env st.steps images).loss] ∧
    (disc_step_state cfg env images st).w_distances =
      st.w_distances ++ [(disc_step_env cfg env st.steps images).wdist] ∧
    (disc_step_state cfg env images st).gradient_penalty_list =
      st.gradient_penalty_list ++
        [mean (disc_step_env cfg env st.steps images).gradient_penalty] ∧
    (disc_step_state cfg env images st).disc_backwards = st.disc_backwards + 1 ∧
    (disc_step_state cfg env images st).disc_opt_steps = st.disc_opt_steps + 1 ∧
    (disc_step_state cfg env images st).disc_grads =
      env.discBackwardGrad (disc_step_env cfg env st.steps images).loss := by
  obtain ⟨hn, hg, hd, hp⟩ := disc_step_lengths cfg env.D env.G env.gradD env.randn
    (env.rand st.steps images.length) cfg.lambda_pen images env.randn_length
    (env.rand_length _ _) hbs
  have hlen : (List.zipWith (fun a b => a - b)
      (disc_step_env cfg env st.steps images).gen_output
      (disc_step_env cfg env st.steps images).disc_output).length
        = (disc_step_env cfg env st.steps images).gradient_penalty.length := by
    simp only [List.length_zipWith, disc_step_env]
    rw [hg, hd, hp, min_self]
  have hdne : (List.zipWith (fun a b => a - b)
      (disc_step_env cfg env st.steps images).gen_output
      (disc_step_env cfg env st.steps images).disc_output) ≠ [] := by
    apply List.ne_nil_of_length_pos
    simp only [List.length_zipWith, disc_step_env]
    rw [hg, hd, min_self]
    exact List.length_pos.mpr hne
  refine ⟨?_, ?_, rfl, rfl, rfl, rfl, rfl, rfl, rfl⟩
  · rw [min_eq_right hbs]; exact hn
  · exact meanMatrix_broadcast _ _ hlen hdne

/-- Witness for disc_step_properties: one one-component sample, the concrete
test environment. -/
theorem disc_step_properties_witness :
    (disc_step_env scenario_cfg testEnv initial_state.steps [[(0:ℝ)]]).noises.length
        = min scenario_cfg.batch_size [[(0:ℝ)]].length ∧
    (disc_step_env scenario_cfg testEnv initial_state.steps [[(0:ℝ)]]).loss =
      mean (List.zipWith (fun a b => a + b)
        (List.zipWith (fun a b => a - b)
          (disc_step_env scenario_cfg testEnv initial_state.steps [[(0:ℝ)]]).gen_output
          (disc_step_env scenario_cfg testEnv initial_state.steps
            [[(0:ℝ)]]).disc_output)
        (disc_step_env scenario_cfg testEnv initial_state.steps
          [[(0:ℝ)]]).gradient_penalty) ∧
    (disc_step_env scenario_cfg testEnv initial_state.steps [[(0:ℝ)]]).wdist =
      mean (List.zipWith (fun a b => a - b)
        (disc_step_env scenario_cfg testEnv initial_state.steps
          [[(0:ℝ)]]).disc_output
        (disc_step_env scenario_cfg testEnv initial_state.steps
          [[(0:ℝ)]]).gen_output) ∧
    (disc_step_state scenario_cfg testEnv [[(0:ℝ)]] initial_state).disc_losses =
      initial_state.disc_losses ++
        [(disc_step_env scenario_cfg testEnv initial_state.steps [[(0:ℝ)]]).loss] ∧
    (disc_step_state scenario_cfg testEnv [[(0:ℝ)]] initial_state).w_distances =
      initial_state.w_distances ++
        [(disc_step_env scenario_cfg testEnv initial_state.steps [[(0:ℝ)]]).wdist] ∧
    (disc_step_state scenario_cfg testEnv [[(0:ℝ)]]
        initial_state).gradient_penalty_list =
      initial_state.gradient_penalty_list ++
        [mean (disc_step_env scenario_cfg testEnv initial_state.steps
          [[(0:ℝ)]]).gradient_penalty] ∧
    (disc_step_state scenario_cfg testEnv [[(0:ℝ)]] initial_state).disc_backwards
        = initial_state.disc_backwards + 1 ∧
    (disc_step_state scenario_cfg testEnv [[(0:ℝ)]] initial_state).disc_opt_steps
        = initial_state.disc_opt_steps + 1 ∧
    (disc_step_state scenario_cfg testEnv [[(0:ℝ)]] initial_state).disc_grads =
      testEnv.discBackwardGrad
        (disc_step_env scenario_cfg testEnv initial_state.steps [[(0:ℝ)]]).loss :=
  disc_step_properties scenario_cfg testEnv initial_state [[(0:ℝ)]]
    (by simp) (by simp [scenario_cfg])

/-- Claim C8: with batch size 8, 10 noise features, one epoch, baseline one
discriminator step, and a loader yielding a single 3-sample batch, one epoch
runs to completion and appends exactly one discriminator-loss entry and exactly
one generator-loss entry: the schedule asks for 100 discriminator steps, the
loader is exhausted after its single batch, then exactly one generator phase
runs. -/
theorem one_epoch_scenario_counts (env : Env) (b : List Sample)
    (_hb : b.length = 3) :
    (run_epoch scenario_cfg env [b] initial_state).disc_losses.length = 1 ∧
    (run_epoch scenario_cfg env [b] initial_state).gen_losses.length = 1 := by
  constructor <;> rfl

/-- Witness for one_epoch_scenario_counts: the 3-sample dummy batch. -/
theorem one_epoch_scenario_counts_witness :
    (run_epoch scenario_cfg testEnv [[[(0:ℝ)], [0], [0]]]
        initial_state).disc_losses.length = 1 ∧
    (run_epoch scenario_cfg testEnv [[[(0:ℝ)], [0], [0]]]
        initial_state).gen_losses.length = 1 :=
  one_epoch_scenario_counts testEnv [[(0:ℝ)], [0], [0]] rfl

/-- The schedule of lines 435-438 is positive whenever the configured baseline
is. -/
theorem adaptive_disc_steps_pos (g base : Nat) (h : 1 ≤ base) :
    1 ≤ adaptive_disc_steps g base := by
  unfold adaptive_disc_steps
  split <;> omega

/-- Batch accounting of the discriminator phase: each consumed batch appends
exactly one discriminator-loss entry and advances the `steps` counter once. -/
theorem disc_phase_count (cfg : Config) (env : Env) (s : Nat) :
    ∀ (batches : List (List Sample)) (st : TrainState),
      (disc_phase cfg env s batches st).1.disc_losses.length
          + (disc_phase cfg env s batches st).2.length
        = st.disc_losses.length + batches.length ∧
      (disc_phase cfg env s batches st).1.steps
          + (disc_phase cfg env s batches st).2.length
        = st.steps + batches.length ∧
      (disc_phase cfg env s batches st).2.length ≤ batches.length := by
  induction s with
  | zero => intro batches st; simp [disc_phase]
  | succ s ih =>
    intro batches st
    cases batches with
    | nil => simp [disc_phase]
    | cons b rest =>
      obtain ⟨ih1, ih2, ih3⟩ := ih rest (disc_step_state cfg env b st)
      have hstep : disc_phase cfg env (s + 1) (b :: rest) st
          = disc_phase cfg env s rest (disc_step_state cfg env b st) := rfl
      rw [hstep]
      have hd : (disc_step_state cfg env b st).disc_losses.length
          = st.disc_losses.length + 1 := by simp [disc_step_state]
      have hs : (disc_step_state cfg env b st).steps = st.steps + 1 := rfl
      refine ⟨?_, ?_, ?_⟩
      · simp only [List.length_cons]; omega
      · simp only [List.length_cons]; omega
      · exact le_trans ih3 (by simp)

/-- Epoch accounting: with a positive configured baseline, an epoch consumes
every batch the loader yielded and appends one discriminator-loss entry per
batch. -/
theorem epoch_loop_disc_count (cfg : Config) (env : Env)
    (hds : 1 ≤ cfg.disc_steps) (fuel : Nat) :
    ∀ (batches : List (List Sample)) (st : TrainState), batches.length ≤ fuel →
      (epoch_loop cfg env fuel batches st).disc_losses.length
          = st.disc_losses.length + batches.length ∧
      (epoch_loop cfg env fuel batches st).steps = st.steps + batches.length := by
  induction fuel with
  | zero =>
    intro batches st h
    have hb : batches = [] := List.length_eq_zero.mp (Nat.le_zero.mp h)
    subst hb
    simp [epoch_loop]
  | succ fuel ih =>
    intro batches st h
    cases batches with
    | nil => simp [epoch_loop]
    | cons b rest =>
      have hrest : rest.length ≤ fuel := by simpa using h
      have hpos := adaptive_disc_steps_pos st.gen_iterations cfg.disc_steps hds
      obtain ⟨k, hk⟩ : ∃ k,
          adaptive_disc_steps st.gen_iterations cfg.disc_steps = k + 1 :=
        ⟨adaptive_disc_steps st.gen_iterations cfg.disc_steps - 1, by omega⟩
      have hphase : disc_phase cfg env
            (adaptive_disc_steps st.gen_iterations cfg.disc_steps) (b :: rest)
            { st with disc_requires_grad := true }
          = disc_phase cfg env k rest (disc_step_state cfg env b
              { st with disc_requires_grad := true }) := by
        rw [hk]
        rfl
      have hunfold : epoch_loop cfg env (fuel + 1) (b :: rest) st
          = epoch_loop cfg env fuel (outer_iteration cfg env (b :: rest) st).2
              (outer_iteration cfg env (b :: rest) st).1 := rfl
      have hO1 : (outer_iteration cfg env (b :: rest) st).1
          = gen_step cfg env { (disc_phase cfg env k rest (disc_step_state cfg env b
              { st with disc_requires_grad := true })).1 with
              disc_requires_grad := false } := by
        show gen_step cfg env { (disc_phase cfg env
            (adaptive_disc_steps st.gen_iterations cfg.disc_steps) (b :: rest)
            { st with disc_requires_grad := true }).1 with
            disc_requires_grad := false } = _
        rw [hphase]
      have hO2 : (outer_iteration cfg env (b :: rest) st).2
          = (disc_phase cfg env k rest (disc_step_state cfg env b
              { st with disc_requires_grad := true })).2 := by
        show (disc_phase cfg env
            (adaptive_disc_steps st.gen_iterations cfg.disc_steps) (b :: rest)
            { st with disc_requires_grad := true }).2 = _
        rw [hphase]
      obtain ⟨c1, c2, c3⟩ := disc_phase_count cfg env k rest
        (disc_step_state cfg env b { st with disc_requires_grad := true })
      obtain ⟨ihl, ihs⟩ := ih ((outer_iteration cfg env (b :: rest) st).2)
        ((outer_iteration cfg env (b :: rest) st).1)
        (by rw [hO2]; exact le_trans c3 hrest)
      rw [hO1, hO2] at ihl ihs
      rw [hunfold, hO1, hO2, ihl, ihs]
      have hgd : (gen_step cfg env { (disc_phase cfg env k rest
          (disc_step_state cfg env b
            { st with disc_requires_grad := true })).1 with
          disc_requires_grad := false }).disc_losses
        = (disc_phase cfg env k rest (disc_step_state cfg env b
            { st with disc_requires_grad := true })).1.disc_losses := rfl
      have hgs : (gen_step cfg env { (disc_phase cfg env k rest
          (disc_step_state cfg env b
            { st with disc_requires_grad := true })).1 with
          disc_requires_grad := false }).steps
        = (disc_phase cfg env k rest (disc_step_state cfg env b
            { st with disc_requires_grad := true })).1.steps := rfl
      rw [hgd, hgs]
      have hd : (disc_step_state cfg env b
          { st with disc_requires_grad := true }).disc_losses.length
        = st.disc_losses.length + 1 := by simp [disc_step_state]
      have hs : (disc_step_state cfg env b
          { st with disc_requires_grad := true }).steps = st.steps + 1 := rfl
      constructor
      · simp only [List.length_cons]; omega
      · simp only [List.length_cons]; omega

/-- Claim C10: in every epoch, each discriminator update consumes exactly one
batch while generator updates consume none, so — for any positive configured
baseline and whatever the adaptive schedule requests — the discriminator-loss
entries appended during the epoch, and equally the `steps` counter, equal the
number of batches the loader yielded. -/
theorem epoch_disc_entries_eq_batches (cfg : Config) (env : Env)
    (hds : 1 ≤ cfg.disc_steps) (batches : List (List Sample)) (st : TrainState) :
    (run_epoch cfg env batches st).disc_losses.length
        = st.disc_losses.length + batches.length ∧
    (run_epoch cfg env batches st).steps = st.steps + batches.length :=
  epoch_loop_disc_count cfg env hds batches.length batches st le_rfl

/-- Witness for epoch_disc_entries_eq_batches: two one-sample batches. -/
theorem epoch_disc_entries_eq_batches_witness :
    (run_epoch scenario_cfg testEnv [[[(0:ℝ)]], [[1]]]
        initial_state).disc_losses.length
      = initial_state.disc_losses.length + 2 ∧
    (run_epoch scenario_cfg testEnv [[[(0:ℝ)]], [[1]]] initial_state).steps
      = initial_state.steps + 2 :=
  epoch_disc_entries_eq_batches scenario_cfg testEnv (by norm_num [scenario_cfg])
    [[[(0:ℝ)]], [[1]]] initial_state

end WGANGP
